import Mathlib

/-!
Shallow embedding of `mitmproxy/addons/dumper.py` (the `Dumper` addon:
eligibility filter, line renderers, body previewer, event handlers),
with theorems settling the frozen claims about its specification.

Conventions of the embedding:
* Python `int` options (`flow_detail`, declared 0–4) are modelled as `Nat`.
* Styled terminal text is modelled structurally: `click.style(text, ...)`
  becomes a `StyledText` record instead of a string with ANSI codes, and a
  rendered line is a `List StyledText`.  Concatenating the `text` fields
  recovers the unstyled characters that are written.
* Fallible accesses (Python attribute errors / assertion failures) are
  modelled with `Option`.
* External helpers that live outside the repository snapshot
  (`human.format_address`, `human.pretty_size`, `strutils`,
  `http.status_codes.RESPONSES`, `flowfilter.parse`, the WebSocket message
  copy protocol) are modelled from the spec and marked as such in their
  doc comments; the filter compiler is kept abstract as a parameter.
-/

namespace Dumper

/-- A network address (host, port), the shape of `Connection.peername` /
`Connection.address` as used by the dumper. -/
structure Address where
  host : String
  port : Nat
deriving DecidableEq, Repr

/-- Modelled from the spec: the "address humanizer" `human.format_address`,
which renders a (host, port) pair as `host:port` (the spec's end-to-end
example shows client peer ("127.0.0.1", 1234) rendered as
`127.0.0.1:1234`). -/
def format_address (a : Address) : String :=
  a.host ++ ":" ++ toString a.port

/-- Modelled from the spec: the "byte-size humanizer" `human.pretty_size`.
Sizes below 1024 bytes render as `<n>b` (the spec's example: an empty body
renders as `0b`); larger sizes use the next unit. Only the sub-kilobyte
branch is exercised by any claim. -/
def pretty_size (n : Nat) : String :=
  if n < 1024 then toString n ++ "b"
  else toString (n / 1024) ++ "k"

/-- Modelled from the spec: the "control-character escaper"
`strutils.escape_control_characters`, which replaces each control character
by a placeholder dot, preserving the character count.  (Written over the
character list of the string, which is extensionally `String.map`.) -/
def escape_control_characters (s : String) : String :=
  String.mk (s.data.map (fun c => if c.toNat < 32 || c.toNat == 127 then '.' else c))

/-- Python's `str.upper`, as used by the method-colour lookup
(`method.upper()`, dumper.py line 153): per-character uppercasing.
(Written over the character list of the string, which is extensionally
`String.toUpper`.) -/
def str_upper (s : String) : String :=
  String.mk (s.data.map Char.toUpper)

/-- A structured style descriptor, standing for the keyword bag passed to
`click.style` / `click.secho`. -/
structure Style where
  fg : Option String := none
  bold : Bool := false
  dim : Bool := false
  blink : Bool := false
deriving DecidableEq, Repr

/-- One styled run of text, the structured counterpart of
`click.style(text, **style)`. -/
structure StyledText where
  text : String
  style : Style := {}
deriving DecidableEq, Repr

/-- Unstyled text segment. -/
def plain (s : String) : StyledText := { text := s }

/-- The unstyled characters of a rendered line: concatenation of the `text`
fields of its segments. -/
def lineText (l : List StyledText) : String :=
  l.foldl (fun acc seg => acc ++ seg.text) ""

/-- `Dumper.match` (dumper.py lines 263-270): verbosity 0 refuses every
flow; otherwise an absent compiled filter accepts every flow, and a present
filter decides by evaluating the predicate on the flow.  The flow type and
the compiled predicate are abstract parameters, mirroring the
`flowfilter.TFilter` interface. -/
def dumper_match {F : Type} (flow_detail : Nat) (filt : Option (F → Bool)) (f : F) : Bool :=
  if flow_detail == 0 then
    false
  else
    match filt with
    | none => true
    | some p => if p f then true else false

/-- The slice of a TCP or WebSocket flow read by the error handlers:
`f.server_conn.address` and `f.error`. -/
structure ErrFlow where
  server_address : Address
  error : String
deriving DecidableEq, Repr

/-- One write to the secondary (error) stream: `echo_error(text, **style)`. -/
structure ErrWrite where
  text : String
  style : Style := {}
deriving DecidableEq, Repr

/-- `Dumper.websocket_error` (dumper.py lines 280-286): unconditionally
writes the red error line to the secondary stream. -/
def websocket_error (f : ErrFlow) : List ErrWrite :=
  [{ text := "Error in WebSocket connection to " ++ format_address f.server_address
        ++ ": " ++ f.error,
     style := { fg := some "red" } }]

/-- `Dumper.tcp_error` (dumper.py lines 305-312): writes the red error line
to the secondary stream only when `self.match(f)` accepts the flow. -/
def tcp_error (flow_detail : Nat) (filt : Option (ErrFlow → Bool)) (f : ErrFlow) :
    List ErrWrite :=
  if dumper_match flow_detail filt f then
    [{ text := "Error in TCP connection to " ++ format_address f.server_address
          ++ ": " ++ f.error,
       style := { fg := some "red" } }]
  else
    []

/-! ### Body previewer: `Dumper._echo_message` (dumper.py lines 98-134) -/

/-- One line handed back by the content-view renderer: a sequence of
(style-tag, text) tokens, as produced by
`contentviews.get_message_content_view`. -/
abbrev ViewLine := List (String × String)

/-- The fixed style map of `_echo_message` (dumper.py lines 116-121):
`highlight` is bold, `offset` blue, `header` bold green, `text` green;
every other tag renders unstyled (`styles.get(style, {})`). -/
def msg_styles (tag : String) : Style :=
  if tag == "highlight" then { bold := true }
  else if tag == "offset" then { fg := some "blue" }
  else if tag == "header" then { fg := some "green", bold := true }
  else if tag == "text" then { fg := some "green" }
  else {}

/-- `colorful(line, styles)` (dumper.py lines 25-28): a four-space indent
segment followed by each token styled through the style map. -/
def colorful (line : ViewLine) : List StyledText :=
  plain "    " :: line.map (fun tok => { text := tok.2, style := msg_styles tok.1 })

/-- The writes `_echo_message` performs, in order, kept structurally:
the optional leading blank line, the single joined content block (its lines
are joined with CRLF inside one `echo` call), the optional dim
`(cut off)` marker, and the optional trailing blank separator. -/
inductive MsgWrite where
  | blank : MsgWrite
  | contentBlock (lines : List (List StyledText)) : MsgWrite
  | cutOffMarker : MsgWrite
deriving DecidableEq, Repr

/-- `lines_to_echo` (dumper.py lines 111-114): `itertools.islice(lines, 70)`
exactly at verbosity 3, the whole sequence otherwise. -/
def lines_to_echo (flow_detail : Nat) (lines : List ViewLine) : List ViewLine :=
  if flow_detail == 3 then lines.take 70 else lines

/-- The state of the shared line iterator after the CRLF join has consumed
`lines_to_echo`: the lines still available.  Empty unless verbosity is 3
(in every other case the join consumed the whole sequence). -/
def remaining_lines (flow_detail : Nat) (lines : List ViewLine) : List ViewLine :=
  if flow_detail == 3 then lines.drop 70 else []

/-- The truncation test `if next(lines, None):` (dumper.py line 130): the
first remaining line is drawn from the iterator (`none` when exhausted) and
tested for Python truthiness — a line that is an empty token list is falsy
and does not trigger the marker. -/
def cut_flag (flow_detail : Nat) (lines : List ViewLine) : Bool :=
  match remaining_lines flow_detail lines with
  | [] => false
  | l :: _ => !l.isEmpty

/-- `Dumper._echo_message`, body rendering part (dumper.py lines 111-134),
applied to the line sequence already obtained from the content view.  The
content block is written (preceded by a blank line) only if the CRLF-joined
string is non-empty, then the `(cut off)` marker if the truncation test
fires, then a trailing blank separator whenever verbosity is at least 2. -/
def echo_message (flow_detail : Nat) (lines : List ViewLine) : List MsgWrite :=
  let rendered := (lines_to_echo flow_detail lines).map colorful
  let content := String.intercalate "\r\n" (rendered.map lineText)
  (if content ≠ "" then [MsgWrite.blank, MsgWrite.contentBlock rendered] else [])
    ++ (if cut_flag flow_detail lines then [MsgWrite.cutOffMarker] else [])
    ++ (if flow_detail ≥ 2 then [MsgWrite.blank] else [])

/-- Number of content lines a sequence of message writes carries. -/
def contentLineCount : List MsgWrite → Nat
  | [] => 0
  | MsgWrite.blank :: ws => contentLineCount ws
  | MsgWrite.contentBlock ls :: ws => ls.length + contentLineCount ws
  | MsgWrite.cutOffMarker :: ws => contentLineCount ws

/-! ### HTTP data model (the fields the dumper reads) -/

/-- The slice of an HTTP request read by the dumper. The `is-HTTP/1.0` and
`is-HTTP/1.1` flags are carried as fields, as in the spec's data model. -/
structure Request where
  method : String
  url : String
  pretty_url : String
  http_version : String
  is_http10 : Bool
  is_http11 : Bool
deriving DecidableEq, Repr

/-- The slice of an HTTP response read by the dumper: status code, reason
phrase, version (with its flags), and the raw body bytes or the missing
sentinel. -/
structure Response where
  status_code : Nat
  reason : String
  http_version : String
  is_http10 : Bool
  is_http11 : Bool
  is_http2 : Bool
  raw_content : Option (List Nat)
deriving DecidableEq, Repr

/-- The slice of an HTTP flow read by the line renderers: an optional
client connection (with its peer address), the replay marker
(none / "request" / "response"), whether the metadata contains the
`h2-pushed-stream` key, and the optional request/response/error. -/
structure HTTPFlow where
  client_peername : Option Address
  is_replay : Option String
  h2_pushed : Bool
  request : Option Request
  response : Option Response
  error : Option String
deriving DecidableEq, Repr

/-- The configuration options the renderers read:
`flow_detail`, `showhost`, and the terminal width reported by
`shutil.get_terminal_size()[0]`. -/
structure Options where
  flow_detail : Nat
  showhost : Bool := false
  terminal_width : Nat := 80
deriving DecidableEq, Repr

/-! ### Request line renderer: `Dumper._echo_request_line` (lines 136-179) -/

/-- The client label of the request line (dumper.py lines 137-146): the
escaped humanized peer address when a client connection exists, a styled
`[replay]` marker for a request replay, and the empty label otherwise. -/
def request_client_label (f : HTTPFlow) : StyledText :=
  match f.client_peername with
  | some a => plain (escape_control_characters (format_address a))
  | none =>
    if f.is_replay == some "request" then
      { text := "[replay]", style := { fg := some "yellow", bold := true } }
    else
      plain ""

/-- The method label (dumper.py lines 148-149): the request method with
`" PUSH_PROMISE"` appended exactly when the flow metadata contains the
`h2-pushed-stream` key. -/
def method_label (method : String) (pushed : Bool) : String :=
  method ++ (if pushed then " PUSH_PROMISE" else "")

/-- The method colour (dumper.py lines 150-153): the dictionary lookup
`{"GET": "green", "DELETE": "red"}.get(method.upper(), "magenta")`, where
`method` is the label *including* any `" PUSH_PROMISE"` suffix. -/
def method_color (method : String) (pushed : Bool) : String :=
  let key := str_upper (method_label method pushed)
  if key == "GET" then "green"
  else if key == "DELETE" then "red"
  else "magenta"

/-- The URL of the request line before styling (dumper.py lines 159-168):
the pretty or raw URL per `showhost`, truncated at verbosity at most 1 to
`max(terminal_width - 25, 50)` characters plus an ellipsis character.
(`Nat` subtraction agrees with Python's `max(w - 25, 50)` here: whenever
`w - 25` is negative the maximum is 50 in both.) -/
def request_url (opts : Options) (req : Request) : String :=
  let url := if opts.showhost then req.pretty_url else req.url
  if opts.flow_detail ≤ 1 then
    let terminal_width_limit := max (opts.terminal_width - 25) 50
    if url.length > terminal_width_limit then
      url.take terminal_width_limit ++ "…"
    else
      url
  else
    url

/-- The HTTP version suffix of the request line (dumper.py lines 171-177):
shown (with a leading space) unless the request is HTTP/1.0 or HTTP/1.1
and its version equals the response's version (defaulted to `HTTP/1.1`
when there is no response yet). -/
def request_version_suffix (f : HTTPFlow) (req : Request) : String :=
  let respVersion :=
    match f.response with
    | some resp => resp.http_version
    | none => "HTTP/1.1"
  if !(req.is_http10 || req.is_http11) || req.http_version ≠ respVersion then
    " " ++ req.http_version
  else
    ""

/-- `Dumper._echo_request_line` (dumper.py lines 136-179): the single
styled line `f"{client}: {method} {url}{http_version}"`, as a list of
styled segments.  It needs the request to be present (Python would fail on
`flow.request.method` otherwise), hence the explicit `req` argument, and is
otherwise total: the absence of a client connection is guarded. -/
def echo_request_line (opts : Options) (f : HTTPFlow) (req : Request) :
    List StyledText :=
  [ request_client_label f,
    plain ": ",
    { text := escape_control_characters (method_label req.method f.h2_pushed),
      style := { fg := some (method_color req.method f.h2_pushed), bold := true } },
    plain " ",
    { text := escape_control_characters (request_url opts req),
      style := { bold := true } },
    plain (request_version_suffix f req) ]

/-! ### Response line renderer: `Dumper._echo_response_line` (lines 181-238) -/

/-- The status colour bucket (dumper.py lines 191-197): 2xx green,
3xx magenta, 4xx and 5xx red, uncoloured otherwise. -/
def status_color (code : Nat) : Option String :=
  if 200 ≤ code ∧ code < 300 then some "green"
  else if 300 ≤ code ∧ code < 400 then some "magenta"
  else if 400 ≤ code ∧ code < 600 then some "red"
  else none

/-- Modelled from the spec: the static status-code table
`http.status_codes.RESPONSES`, used as the reason-phrase fallback for
HTTP/2 responses; unknown codes fall back to the empty string. -/
def responses_table (code : Nat) : String :=
  if code == 200 then "OK"
  else if code == 304 then "Not Modified"
  else if code == 404 then "Not Found"
  else if code == 418 then "I'm a teapot"
  else ""

/-- The HTTP version segment of the response line (dumper.py lines
221-227): `f"{version} "` (note the trailing space) unless the response is
HTTP/1.0 or HTTP/1.1 and the request's version equals it. -/
def response_version_str (req : Request) (resp : Response) : String :=
  if !(resp.is_http10 || resp.is_http11) || req.http_version ≠ resp.http_version then
    resp.http_version ++ " "
  else
    ""

/-- The replay marker text of the response line (dumper.py lines 182-187):
`"[replay]"` exactly for a response replay. -/
def response_replay_str (f : HTTPFlow) : String :=
  if f.is_replay == some "response" then "[replay]" else ""

/-- The reason phrase of the response line (dumper.py lines 205-208): the
response's own reason unless the response is HTTP/2, in which case the
static status-code table supplies it. -/
def reason_str (resp : Response) : String :=
  if !resp.is_http2 then resp.reason else responses_table resp.status_code

/-- The size text of the response line (dumper.py lines 215-218):
the missing-content sentinel, or the humanized byte count. -/
def size_str (resp : Response) : String :=
  match resp.raw_content with
  | none => "(content missing)"
  | some bs => pretty_size bs.length

/-- The arrow padding of the response line (dumper.py lines 230-236): at
verbosity exactly 1 the styled `" <<"` marker is prefixed by
`max(0, len(client_address) - (2 + len(http_version) + len(replay_str)))`
spaces (`Nat` subtraction is that maximum), where the padding reads
`flow.client_conn.peername` with no absence guard; at any other verbosity
no padding is added. -/
def response_pad (flow_detail : Nat) (client_address hv replay_str : String) : Nat :=
  if flow_detail == 1 then
    client_address.length - (2 + hv.length + replay_str.length)
  else
    0

/-- The styled `[replay]` segment list of the response line (dumper.py
lines 182-187): one yellow bold segment for a response replay, nothing
otherwise. -/
def replay_segs (f : HTTPFlow) : List StyledText :=
  if f.is_replay == some "response" then
    [{ text := "[replay]", style := { fg := some "yellow", bold := true } }]
  else
    []

/-- The segments of the response line after the arrows (dumper.py line
238): the separating space, the version text, the coloured status code
(blinking exactly at 418), the coloured reason phrase and the bold size. -/
def response_base_segs (resp : Response) (req : Request) : List StyledText :=
  [ plain " ",
    plain (response_version_str req resp),
    { text := toString resp.status_code,
      style := { fg := status_color resp.status_code, bold := true,
                 blink := resp.status_code == 418 } },
    plain " ",
    { text := escape_control_characters (reason_str resp),
      style := { fg := status_color resp.status_code, bold := true } },
    plain " ",
    { text := size_str resp, style := { bold := true } } ]

/-- `Dumper._echo_response_line` (dumper.py lines 181-238): the styled line
`f"{replay}{arrows} {http_version}{code} {reason} {size}"`.  `none` models
a Python failure: the `assert flow.response`, the unguarded
`flow.request.http_version` read in the version comparison, and — at
verbosity exactly 1 only — the unguarded `flow.client_conn.peername` read
in the padding computation. -/
def echo_response_line (opts : Options) (f : HTTPFlow) :
    Option (List StyledText) :=
  match f.response, f.request with
  | some resp, some req =>
    if opts.flow_detail == 1 then
      match f.client_peername with
      | some peer =>
          some (replay_segs f
            ++ [plain (String.mk (List.replicate
                  (response_pad 1 (format_address peer)
                    (response_version_str req resp) (response_replay_str f)) ' ')),
                { text := " <<", style := { bold := true } }]
            ++ response_base_segs resp req)
      | none => none
    else
      some (replay_segs f ++ [{ text := " <<", style := { bold := true } }]
        ++ response_base_segs resp req)
  | _, _ => none

/-! ### Configuration update: `Dumper.configure` (dumper.py lines 59-68) -/

/-- `Dumper.configure`, parametric in the external filter compiler
`flowfilter.parse` (which returns the compiled predicate, or nothing for a
malformed expression).  Returns the `self.filter` state after the handler
together with the raised `OptionsError` message, if any.  Faithful to the
source's order: when the new option value is truthy (a non-empty string),
`self.filter` is first assigned the parse result and only then, if that
result is empty, the error is raised — so the assignment survives the
raise. -/
def configure {α : Type} (parse : String → Option α) (current : Option α)
    (updated : Bool) (dumper_filter : Option String) :
    Option α × Option String :=
  if updated then
    match dumper_filter with
    | some s =>
      if s ≠ "" then
        let newFilter := parse s
        match newFilter with
        | none => (newFilter, some ("Invalid filter expression: " ++ s))
        | some _ => (newFilter, none)
      else
        (none, none)
    | none => (none, none)
  else
    (current, none)

/-! ### WebSocket message handler: `Dumper.websocket_message` (lines 288-295) -/

/-- The content of a WebSocket message: `str` or `bytes` in Python. -/
inductive WSContent where
  | text (s : String) : WSContent
  | binary (b : List Nat) : WSContent
deriving DecidableEq, Repr

/-- The slice of a WebSocket message the handler reads. -/
structure WSMessage where
  from_client : Bool
  content : WSContent
deriving DecidableEq, Repr

/-- The slice of a WebSocket flow the handler reads: its ordered message
sequence. -/
structure WSFlow where
  messages : List WSMessage
deriving DecidableEq, Repr

/-- The normalization
`message.content.encode() if isinstance(message.content, str) else message.content`
(dumper.py line 294), parametric in the external string encoder. -/
def normalize_content (encode : String → List Nat) : WSContent → WSContent
  | WSContent.text s => WSContent.binary (encode s)
  | WSContent.binary b => WSContent.binary b

/-- The writes the WebSocket message handler performs: the one-line message
description, and the body-preview invocation recorded with the exact
message object passed to `_echo_message`. -/
inductive WSWrite where
  | line (s : String) : WSWrite
  | preview (m : WSMessage) : WSWrite
deriving DecidableEq, Repr

/-- `Dumper.websocket_message` (dumper.py lines 288-295), parametric in the
external encoder and in `WebSocketFlow.message_info`.  Modelled from the
spec for the copy step: `message.from_state(message.get_state())` produces
a fresh copy of the last message (the serialization round-trip), so the
subsequent content assignment mutates only the copy; the handler therefore
leaves the flow unchanged, which the model renders by returning the flow
alongside the writes.  `none` models the Python `IndexError` of
`f.messages[-1]` on an empty message list. -/
def websocket_message (flow_detail : Nat) (filt : Option (WSFlow → Bool))
    (encode : String → List Nat) (info : WSMessage → String) (f : WSFlow) :
    Option (WSFlow × List WSWrite) :=
  if dumper_match flow_detail filt f then
    match f.messages.getLast? with
    | none => none
    | some message =>
      if flow_detail ≥ 3 then
        let copy : WSMessage :=
          { message with content := normalize_content encode message.content }
        some (f, [WSWrite.line (info message), WSWrite.preview copy])
      else
        some (f, [WSWrite.line (info message)])
  else
    some (f, [])

/-! ### Shared helper lemmas -/

theorem data_append (s t : String) : (s ++ t).data = s.data ++ t.data := by
  cases s; cases t; rfl

theorem length_append (s t : String) : (s ++ t).length = s.length + t.length := by
  cases s; cases t
  show (List.length _) = _
  simp [data_append]

theorem length_take (s : String) (n : Nat) : (s.take n).length = min n s.length := by
  rw [String.take_eq]
  simp

theorem ne_empty_of_length_pos {s : String} (h : 0 < s.length) : s ≠ "" := by
  intro he
  subst he
  have h0 : ("" : String).length = 0 := rfl
  omega

theorem foldl_text_length (l : List StyledText) (acc : String) :
    acc.length ≤ (l.foldl (fun a seg => a ++ seg.text) acc).length := by
  induction l generalizing acc with
  | nil => exact Nat.le_refl _
  | cons s ls ih =>
      simp only [List.foldl_cons]
      calc acc.length ≤ (acc ++ s.text).length := by
            rw [length_append]; omega
        _ ≤ _ := ih (acc ++ s.text)

theorem intercalate_go_length (sep acc : String) (as : List String) :
    acc.length ≤ (String.intercalate.go acc sep as).length := by
  induction as generalizing acc with
  | nil => simp [String.intercalate.go]
  | cons a as ih =>
      rw [String.intercalate.go]
      calc acc.length ≤ (acc ++ sep ++ a).length := by
            rw [length_append, length_append]; omega
        _ ≤ _ := ih (acc ++ sep ++ a)

theorem intercalate_cons_length (sep t : String) (ts : List String) :
    t.length ≤ (String.intercalate sep (t :: ts)).length := by
  rw [String.intercalate]
  exact intercalate_go_length sep t ts

theorem lineText_colorful_length (l : ViewLine) :
    4 ≤ (lineText (colorful l)).length := by
  unfold lineText colorful
  simp only [List.foldl_cons]
  have h4 : (("" : String) ++ (plain "    ").text).length = 4 := rfl
  have := foldl_text_length
    (l.map (fun tok => { text := tok.2, style := msg_styles tok.1 }))
    ("" ++ (plain "    ").text)
  omega

/-! ### Claim C1: the eligibility check `Dumper.match` -/

/-- C1: for every flow, `match` returns `false` when `flow_detail` is 0
regardless of the filter; when the verbosity is positive and no compiled
predicate is set it returns `true`; otherwise it returns exactly the result
of evaluating the compiled predicate on the flow. -/
theorem dumper_match_spec {F : Type} (d : Nat) (filt : Option (F → Bool)) (f : F) :
    (d = 0 → dumper_match d filt f = false) ∧
    (0 < d → filt = none → dumper_match d filt f = true) ∧
    (∀ p, 0 < d → filt = some p → dumper_match d filt f = p f) := by
  refine ⟨fun h => ?_, fun hd hf => ?_, fun p hd hf => ?_⟩
  · subst h; rfl
  · subst hf
    have hne : (d == 0) = false := by simp; omega
    simp [dumper_match, hne]
  · subst hf
    have hne : (d == 0) = false := by simp; omega
    cases hpf : p f <;> simp [dumper_match, hne, hpf]

/-- Witness for C1: concrete evaluations of `Dumper.match` through
`dumper_match_spec` — verbosity 0 refuses a flow despite a matching filter,
a positive verbosity with no filter accepts, and with a filter the
predicate's value is returned. -/
theorem dumper_match_spec_witness :
    dumper_match 0 (some (fun n : Nat => n % 2 == 0)) 4 = false ∧
    dumper_match 2 (none : Option (Nat → Bool)) 7 = true ∧
    dumper_match 2 (some (fun n : Nat => n % 2 == 0)) 4 = true := by
  refine ⟨(dumper_match_spec 0 (some (fun n : Nat => n % 2 == 0)) 4).1 rfl,
          (dumper_match_spec 2 none 7).2.1 (by omega) rfl, ?_⟩
  have h := (dumper_match_spec 2 (some (fun n : Nat => n % 2 == 0)) 4).2.2
    (fun n : Nat => n % 2 == 0) (by omega) rfl
  rw [h]
  rfl

/-! ### Claim C2: WebSocket and TCP error reporting -/

/-- C2 counterexample: at verbosity 0 a TCP error event writes nothing at
all — `Dumper.tcp_error` consults the eligibility check `Dumper.match`
(which refuses every flow at verbosity 0), while the WebSocket error
handler does write its line unconditionally.  This falsifies the claim
that the TCP error line is written without consulting the filter or the
verbosity level. -/
theorem tcp_error_gated_counterexample :
    tcp_error 0 none { server_address := { host := "10.0.0.1", port := 4444 },
                       error := "connection reset" } = [] ∧
    websocket_error { server_address := { host := "10.0.0.1", port := 4444 },
                      error := "connection reset" } =
      [{ text := "Error in WebSocket connection to 10.0.0.1:4444: connection reset",
         style := { fg := some "red" } }] := by
  exact ⟨rfl, rfl⟩

/-- C2 amended: the WebSocket error line is written to the secondary stream
unconditionally, but the TCP error line is written only when the
eligibility check `Dumper.match` accepts the flow (so never at verbosity 0,
and never for a flow the filter rejects). -/
theorem error_handlers_gating (d : Nat) (filt : Option (ErrFlow → Bool)) (f : ErrFlow) :
    websocket_error f =
      [{ text := "Error in WebSocket connection to " ++ format_address f.server_address
            ++ ": " ++ f.error, style := { fg := some "red" } }] ∧
    (dumper_match d filt f = true →
      tcp_error d filt f =
        [{ text := "Error in TCP connection to " ++ format_address f.server_address
              ++ ": " ++ f.error, style := { fg := some "red" } }]) ∧
    (dumper_match d filt f = false → tcp_error d filt f = []) := by
  refine ⟨rfl, fun h => ?_, fun h => ?_⟩ <;> simp [tcp_error, h]

/-- Witness for C2 (amended): a TCP error is written when the filter-free
eligibility check accepts at verbosity 1, and suppressed at verbosity 0. -/
theorem error_handlers_gating_witness :
    tcp_error 1 none { server_address := { host := "192.0.2.7", port := 9 },
                       error := "boom" } =
      [{ text := "Error in TCP connection to 192.0.2.7:9: boom",
         style := { fg := some "red" } }] ∧
    tcp_error 0 none { server_address := { host := "192.0.2.7", port := 9 },
                       error := "boom" } = [] := by
  constructor
  · have h := (error_handlers_gating 1 none
      { server_address := { host := "192.0.2.7", port := 9 }, error := "boom" }).2.1
      (by rfl)
    rw [h]
    rfl
  · exact (error_handlers_gating 0 none
      { server_address := { host := "192.0.2.7", port := 9 }, error := "boom" }).2.2
      (by rfl)

/-! ### Claims C3 and C6: the body previewer -/

theorem contentLineCount_append (a b : List MsgWrite) :
    contentLineCount (a ++ b) = contentLineCount a + contentLineCount b := by
  induction a with
  | nil => simp [contentLineCount]
  | cons w ws ih => cases w <;> simp [contentLineCount, ih] <;> omega

theorem content_ne_empty (a : ViewLine) (as : List ViewLine) :
    String.intercalate "\r\n" (lineText (colorful a) :: as.map (lineText ∘ colorful)) ≠ "" := by
  apply ne_empty_of_length_pos
  have h1 := intercalate_cons_length "\r\n" (lineText (colorful a))
    (as.map (lineText ∘ colorful))
  have h2 := lineText_colorful_length a
  omega

theorem echo_message_eq (d : Nat) (lines : List ViewLine) :
    echo_message d lines =
      (if lines_to_echo d lines = [] then []
       else [MsgWrite.blank, MsgWrite.contentBlock ((lines_to_echo d lines).map colorful)])
      ++ (if cut_flag d lines then [MsgWrite.cutOffMarker] else [])
      ++ (if d ≥ 2 then [MsgWrite.blank] else []) := by
  unfold echo_message
  cases h : lines_to_echo d lines with
  | nil => simp [h, String.intercalate]
  | cons a as => simp [h, content_ne_empty a as]

theorem contentLineCount_echo_message (d : Nat) (lines : List ViewLine) :
    contentLineCount (echo_message d lines) = (lines_to_echo d lines).length := by
  rw [echo_message_eq, contentLineCount_append, contentLineCount_append]
  have h2 : contentLineCount (if cut_flag d lines then [MsgWrite.cutOffMarker] else []) = 0 := by
    split <;> rfl
  have h3 : contentLineCount (if d ≥ 2 then [MsgWrite.blank] else []) = 0 := by
    split <;> rfl
  rw [h2, h3]
  cases h : lines_to_echo d lines with
  | nil => simp [contentLineCount]
  | cons a as => simp [contentLineCount]

theorem cut_flag_iff (d : Nat) (lines : List ViewLine) :
    cut_flag d lines = true ↔
      d = 3 ∧ ∃ l rest, lines.drop 70 = l :: rest ∧ l ≠ [] := by
  unfold cut_flag remaining_lines
  by_cases h3 : d = 3
  · subst h3
    simp only [beq_self_eq_true, if_pos]
    cases h : lines.drop 70 with
    | nil => simp
    | cons l rest =>
        simp only [Bool.not_eq_true', true_and]
        constructor
        · intro hl
          exact ⟨l, rest, rfl, by simpa using hl⟩
        · rintro ⟨l2, rest2, hlr, hl2⟩
          cases hlr
          simpa using hl2
  · have hne : (d == 3) = false := by simp [h3]
    simp [hne, h3]

theorem cutoff_mem_iff (d : Nat) (lines : List ViewLine) :
    MsgWrite.cutOffMarker ∈ echo_message d lines ↔
      d = 3 ∧ ∃ l rest, lines.drop 70 = l :: rest ∧ l ≠ [] := by
  rw [← cut_flag_iff, echo_message_eq]
  have h1 : MsgWrite.cutOffMarker ∉
      (if lines_to_echo d lines = [] then []
       else [MsgWrite.blank, MsgWrite.contentBlock ((lines_to_echo d lines).map colorful)]) := by
    split <;> simp
  have h3 : MsgWrite.cutOffMarker ∉ (if d ≥ 2 then [MsgWrite.blank] else []) := by
    split <;> simp
  simp only [List.mem_append]
  constructor
  · rintro ((h | h) | h)
    · exact absurd h h1
    · revert h
      split
      · intro _; assumption
      · intro h; simp at h
    · exact absurd h h3
  · intro hc
    refine Or.inl (Or.inr ?_)
    simp [hc]

/-- C3 counterexample: a line sequence of 71 available lines whose 71st
line is an *empty* token list.  At verbosity 3 the capped prefix of 70
lines is consumed and one further line remains available, so the claim
requires the `(cut off)` marker — but `Dumper._echo_message` tests the
drawn line for Python truthiness (`if next(lines, None):`), the empty line
is falsy, and no marker is written. -/
theorem echo_message_cutoff_counterexample :
    (List.replicate 70 ([("text", "a")] : ViewLine) ++ [([] : ViewLine)]).length = 71 ∧
    MsgWrite.cutOffMarker ∉
      echo_message 3 (List.replicate 70 ([("text", "a")] : ViewLine) ++ [([] : ViewLine)]) := by
  constructor
  · simp
  · rw [cutoff_mem_iff]
    rintro ⟨-, l, rest, hdrop, hl⟩
    have hd : (List.replicate 70 ([("text", "a")] : ViewLine) ++ [([] : ViewLine)]).drop 70
        = [([] : ViewLine)] := by decide
    rw [hd] at hdrop
    cases hdrop
    exact hl rfl

/-- C3 amended: at verbosity exactly 3 the preview emits
`min 70 (number of available lines)` content lines and at verbosity 4 all
of them; the dim `(cut off)` marker is appended exactly when verbosity is
3 and, after the capped prefix of 70 lines, a further line remains that is
*non-empty* (the code draws one more line and tests it for truthiness, so
an empty remaining line suppresses the marker).  In particular 100
available (non-empty) lines at verbosity 3 yield exactly 70 content lines
plus the marker, and at verbosity 4 all 100 lines and no marker. -/
theorem echo_message_truncation (lines : List ViewLine) :
    contentLineCount (echo_message 3 lines) = min 70 lines.length ∧
    contentLineCount (echo_message 4 lines) = lines.length ∧
    (∀ d, MsgWrite.cutOffMarker ∈ echo_message d lines ↔
      d = 3 ∧ ∃ l rest, lines.drop 70 = l :: rest ∧ l ≠ []) ∧
    contentLineCount (echo_message 3 (List.replicate 100 ([("text", "x")] : ViewLine))) = 70 ∧
    MsgWrite.cutOffMarker ∈ echo_message 3 (List.replicate 100 ([("text", "x")] : ViewLine)) ∧
    contentLineCount (echo_message 4 (List.replicate 100 ([("text", "x")] : ViewLine))) = 100 ∧
    MsgWrite.cutOffMarker ∉ echo_message 4 (List.replicate 100 ([("text", "x")] : ViewLine)) := by
  refine ⟨?_, ?_, fun d => cutoff_mem_iff d lines, ?_, ?_, ?_, ?_⟩
  · rw [contentLineCount_echo_message]
    simp [lines_to_echo]
  · rw [contentLineCount_echo_message]
    simp [lines_to_echo]
  · rw [contentLineCount_echo_message]
    simp [lines_to_echo]
  · rw [cutoff_mem_iff]
    refine ⟨rfl, [("text", "x")], List.replicate 29 ([("text", "x")] : ViewLine), ?_, by simp⟩
    simp [List.drop_replicate]
  · rw [contentLineCount_echo_message]
    simp [lines_to_echo]
  · rw [cutoff_mem_iff]
    rintro ⟨h, -⟩
    omega

/-- C6 counterexample: a body preview with no content at verbosity 3 (the
only verbosity at which `_echo_message` runs for HTTP flows, and one at
which `flow_detail >= 2` holds) still produces one output line — the
unconditional trailing blank separator of dumper.py lines 133-134 — so the
claim that no line at all is written is false. -/
theorem echo_message_empty_counterexample :
    echo_message 3 ([] : List ViewLine) = [MsgWrite.blank] ∧
    echo_message 3 ([] : List ViewLine) ≠ [] := by
  have h : echo_message 3 ([] : List ViewLine) = [MsgWrite.blank] := rfl
  exact ⟨h, by rw [h]; simp⟩

/-- C6 amended: for an empty (or fully erroring, hence empty) content-view
line sequence, the body previewer emits no leading blank line, no content
line and no `(cut off)` marker, but it does emit the trailing blank
separator whenever the verbosity is at least 2 — which holds at every call
site of `_echo_message` (all are gated by `flow_detail >= 3`). -/
theorem echo_message_empty (d : Nat) :
    echo_message d ([] : List ViewLine) =
      if d ≥ 2 then [MsgWrite.blank] else [] := by
  rw [echo_message_eq]
  have h1 : lines_to_echo d [] = [] := by
    unfold lines_to_echo; split <;> simp
  have hr : remaining_lines d [] = [] := by
    unfold remaining_lines
    split <;> simp
  have h2 : cut_flag d [] = false := by
    unfold cut_flag
    rw [hr]
  simp [h1, h2]

/-! ### Claim C4: URL truncation in the request line -/

theorem length_escape (s : String) :
    (escape_control_characters s).length = s.length := by
  unfold escape_control_characters
  simp [String.length_data]

/-- C4: at verbosity at most 1 the URL field of the request line never
exceeds `max(terminal_width - 25, 50)` characters plus one ellipsis
character, and the bound survives the control-character escaping applied
just before styling (escaping is character-for-character, so styling never
affects the truncation length); at verbosity at least 2 the URL is passed
through untouched. -/
theorem request_url_truncation (opts : Options) (req : Request) :
    (opts.flow_detail ≤ 1 →
      (request_url opts req).length ≤ max (opts.terminal_width - 25) 50 + 1 ∧
      (escape_control_characters (request_url opts req)).length
        ≤ max (opts.terminal_width - 25) 50 + 1) ∧
    (2 ≤ opts.flow_detail →
      request_url opts req = (if opts.showhost then req.pretty_url else req.url)) := by
  constructor
  · intro h
    rw [length_escape]
    unfold request_url
    rw [if_pos h]
    set url := if opts.showhost then req.pretty_url else req.url with hu
    by_cases hlen : url.length > max (opts.terminal_width - 25) 50
    · rw [if_pos hlen, length_append, length_take]
      have he : ("…" : String).length = 1 := rfl
      constructor <;> omega
    · rw [if_neg hlen]
      constructor <;> omega
  · intro h
    unfold request_url
    rw [if_neg (by omega)]

/-- Witness for C4: a 67-character URL at verbosity 1 on an 80-column
terminal renders within 56 characters (55 plus the ellipsis), and at
verbosity 2 the same URL is untouched. -/
theorem request_url_truncation_witness :
    (request_url { flow_detail := 1, terminal_width := 80 }
        { method := "GET",
          url := "http://example.com/aaaaaaaaaaaaaaaaaaaaaaaaaaaaaaaaaaaaaaaaaaaaaaaa",
          pretty_url := "http://example.com/aaaaaaaaaaaaaaaaaaaaaaaaaaaaaaaaaaaaaaaaaaaaaaaa",
          http_version := "HTTP/1.1", is_http10 := false, is_http11 := true }).length
      ≤ 56 ∧
    request_url { flow_detail := 2, terminal_width := 80 }
        { method := "GET",
          url := "http://example.com/aaaaaaaaaaaaaaaaaaaaaaaaaaaaaaaaaaaaaaaaaaaaaaaa",
          pretty_url := "http://example.com/aaaaaaaaaaaaaaaaaaaaaaaaaaaaaaaaaaaaaaaaaaaaaaaa",
          http_version := "HTTP/1.1", is_http10 := false, is_http11 := true }
      = "http://example.com/aaaaaaaaaaaaaaaaaaaaaaaaaaaaaaaaaaaaaaaaaaaaaaaa" := by
  constructor
  · have h := (request_url_truncation { flow_detail := 1, terminal_width := 80 }
      { method := "GET",
        url := "http://example.com/aaaaaaaaaaaaaaaaaaaaaaaaaaaaaaaaaaaaaaaaaaaaaaaa",
        pretty_url := "http://example.com/aaaaaaaaaaaaaaaaaaaaaaaaaaaaaaaaaaaaaaaaaaaaaaaa",
        http_version := "HTTP/1.1", is_http10 := false, is_http11 := true }).1
      (by decide)
    exact le_trans h.1 (by decide)
  · have h := (request_url_truncation { flow_detail := 2, terminal_width := 80 }
      { method := "GET",
        url := "http://example.com/aaaaaaaaaaaaaaaaaaaaaaaaaaaaaaaaaaaaaaaaaaaaaaaa",
        pretty_url := "http://example.com/aaaaaaaaaaaaaaaaaaaaaaaaaaaaaaaaaaaaaaaaaaaaaaaa",
        http_version := "HTTP/1.1", is_http10 := false, is_http11 := true }).2
      (by decide)
    rw [h]
    rfl

/-! ### Claim C5: the `dumper_filter` configuration update -/

/-- C5 counterexample: a failed update does not leave the previously
effective predicate in effect.  With the compiled predicate `some ()` in
place and a malformed expression arriving, `Dumper.configure` assigns
`self.filter = flowfilter.parse(...)` — that is, `none` — *before* raising
the options error, so after the rejected update the addon is left with no
filter rather than with the previous predicate. -/
theorem configure_clobber_counterexample :
    configure (fun _ => (none : Option Unit)) (some ()) true (some "~badexpr")
      = (none, some "Invalid filter expression: ~badexpr") ∧
    (none : Option Unit) ≠ some () := by
  exact ⟨rfl, by simp⟩

/-- C5 amended: an update with an absent or empty filter string clears the
compiled predicate and raises no error; a malformed expression raises a
configuration error whose message names the offending expression and the
predicate is *cleared* (reset to no-filter) rather than left at its
previous value, since the assignment precedes the raise; a well-formed
expression installs the compiled predicate; and an event that does not
update `dumper_filter` leaves the predicate untouched. -/
theorem configure_spec {α : Type} (parse : String → Option α) (cur : Option α)
    (s : String) :
    configure parse cur true none = (none, none) ∧
    configure parse cur true (some "") = (none, none) ∧
    (s ≠ "" → parse s = none →
      configure parse cur true (some s)
        = (none, some ("Invalid filter expression: " ++ s))) ∧
    (∀ p, s ≠ "" → parse s = some p →
      configure parse cur true (some s) = (some p, none)) ∧
    configure parse cur false (some s) = (cur, none) := by
  refine ⟨rfl, rfl, fun hs hp => ?_, fun p hs hp => ?_, rfl⟩ <;>
    simp [configure, hs, hp]

/-- Witness for C5: a parse function that accepts only `~u`; updating with
the malformed `~q` raises the naming error and clears the predicate, while
updating with `~u` installs it. -/
theorem configure_spec_witness :
    configure (fun q : String => if q == "~u" then some () else none)
        (some ()) true (some "~q")
      = (none, some "Invalid filter expression: ~q") ∧
    configure (fun q : String => if q == "~u" then some () else none)
        none true (some "~u")
      = (some (), none) := by
  constructor
  · exact Eq.trans
      ((configure_spec (fun q : String => if q == "~u" then some () else none)
        (some ()) "~q").2.2.1 (by decide) rfl) rfl
  · exact (configure_spec (fun q : String => if q == "~u" then some () else none)
      none "~u").2.2.2.1 () (by decide) rfl

/-! ### Claim C7: method label and colour -/

theorem append_empty_str (s : String) : s ++ "" = s := by
  cases s with
  | mk l =>
      show String.mk (l ++ []) = String.mk l
      rw [List.append_nil]

theorem str_upper_length (s : String) : (str_upper s).length = s.length := by
  unfold str_upper
  simp [String.length_data]

/-- C7 counterexample: the colour lookup keys on the *suffixed* label
uppercased (`method.upper()` after `" PUSH_PROMISE"` has been appended), so
a pushed GET request's method renders magenta, not green as the claim
asserts — while an unpushed GET is green. -/
theorem pushed_get_counterexample :
    method_label "GET" true = "GET PUSH_PROMISE" ∧
    method_color "GET" true = "magenta" ∧
    method_color "GET" false = "green" := by
  exact ⟨rfl, rfl, rfl⟩

/-- C7 amended: the method label appends `" PUSH_PROMISE"` exactly when the
flow metadata marks an HTTP/2 pushed stream; the colour lookup keys on the
full label uppercased, so an unpushed method is green for GET, red for
DELETE and magenta otherwise, and *every* pushed method — GET included —
renders magenta, since the suffixed key can never equal "GET" or
"DELETE". -/
theorem method_label_color (m : String) (pushed : Bool) :
    method_label m pushed = m ++ (if pushed then " PUSH_PROMISE" else "") ∧
    (pushed = false →
      method_color m false =
        if str_upper m == "GET" then "green"
        else if str_upper m == "DELETE" then "red"
        else "magenta") ∧
    (pushed = true → method_color m true = "magenta") := by
  refine ⟨rfl, fun _ => ?_, fun _ => ?_⟩
  · unfold method_color method_label
    simp only [Bool.false_eq_true, if_false]
    rw [append_empty_str]
  · have hkey : (str_upper (method_label m true)).length = m.length + 13 := by
      unfold method_label
      rw [str_upper_length]
      simp only [if_pos]
      rw [length_append]
      have h13 : (" PUSH_PROMISE" : String).length = 13 := rfl
      omega
    have hg : (str_upper (method_label m true) == "GET") = false := by
      apply beq_eq_false_iff_ne.mpr
      intro he
      have hlen := congrArg String.length he
      rw [hkey] at hlen
      have h3 : ("GET" : String).length = 3 := rfl
      omega
    have hd : (str_upper (method_label m true) == "DELETE") = false := by
      apply beq_eq_false_iff_ne.mpr
      intro he
      have hlen := congrArg String.length he
      rw [hkey] at hlen
      have h6 : ("DELETE" : String).length = 6 := rfl
      omega
    unfold method_color
    simp [hg, hd]

/-- Witness for C7 (amended): an unpushed POST is magenta, an unpushed
DELETE is red, and a pushed DELETE is magenta. -/
theorem method_label_color_witness :
    method_label "POST" false = "POST" ∧
    method_color "POST" false = "magenta" ∧
    method_color "DELETE" false = "red" ∧
    method_color "DELETE" true = "magenta" := by
  refine ⟨?_, ?_, ?_, ?_⟩
  · rw [(method_label_color "POST" false).1]
    rfl
  · rw [(method_label_color "POST" false).2.1 rfl]
    rfl
  · rw [(method_label_color "DELETE" false).2.1 rfl]
    rfl
  · exact (method_label_color "DELETE" true).2.2 rfl

/-! ### Claim C8: arrow padding in the response line -/

theorem foldl_text_init (b : List StyledText) (x : String) :
    b.foldl (fun acc seg => acc ++ seg.text) x
      = x ++ b.foldl (fun acc seg => acc ++ seg.text) "" := by
  induction b generalizing x with
  | nil => simp
  | cons s bs ih =>
      simp only [List.foldl_cons]
      rw [ih (x ++ s.text), ih ("" ++ s.text)]
      simp [String.append_assoc]

theorem lineText_nil : lineText [] = "" := rfl

theorem lineText_cons (s : StyledText) (l : List StyledText) :
    lineText (s :: l) = s.text ++ lineText l := by
  unfold lineText
  simp only [List.foldl_cons]
  rw [foldl_text_init l ("" ++ s.text)]
  simp

theorem lineText_append_split (a b : List StyledText) :
    lineText (a ++ b) = lineText a ++ lineText b := by
  induction a with
  | nil => simp [lineText_nil]
  | cons s l ih => simp [lineText_cons, ih, String.append_assoc]

/-- C8: at verbosity exactly 1, the `<<` arrow marker of the response line
is left-padded with exactly
`max(0, len(client_address) - (2 + len(http_version_prefix) + len(replay_marker_text)))`
spaces (written with truncated `Nat` subtraction, which equals that
maximum), where the client address is the humanized peer address, the
version prefix is the possibly empty `"<version> "` string and the replay
marker text is `"[replay]"` for a response replay and empty otherwise; at
any other verbosity no padding is added. -/
theorem response_line_padding (opts : Options) (f : HTTPFlow) (resp : Response)
    (req : Request) (c : Address)
    (hresp : f.response = some resp) (hreq : f.request = some req)
    (hc : f.client_peername = some c) :
    (opts.flow_detail = 1 →
      ∃ segs, echo_response_line opts f = some segs ∧
        lineText segs =
          response_replay_str f
            ++ String.mk (List.replicate
                ((format_address c).length
                  - (2 + (response_version_str req resp).length
                       + (response_replay_str f).length)) ' ')
            ++ " <<" ++ " " ++ response_version_str req resp
            ++ toString resp.status_code ++ " "
            ++ escape_control_characters (reason_str resp) ++ " " ++ size_str resp) ∧
    (opts.flow_detail ≠ 1 →
      ∃ segs, echo_response_line opts f = some segs ∧
        lineText segs =
          response_replay_str f ++ " <<" ++ " " ++ response_version_str req resp
            ++ toString resp.status_code ++ " "
            ++ escape_control_characters (reason_str resp) ++ " " ++ size_str resp) := by
  have hrs : lineText (replay_segs f) = response_replay_str f := by
    unfold replay_segs response_replay_str
    split <;> simp [lineText_cons, lineText_nil]
  constructor
  · intro h1
    have hb : (opts.flow_detail == 1) = true := by simp [h1]
    have heq : echo_response_line opts f = some
        (replay_segs f
          ++ [plain (String.mk (List.replicate
                (response_pad 1 (format_address c)
                  (response_version_str req resp) (response_replay_str f)) ' ')),
              { text := " <<", style := { bold := true } }]
          ++ response_base_segs resp req) := by
      simp only [echo_response_line, hresp, hreq, hc, hb, if_true]
    refine ⟨_, heq, ?_⟩
    simp only [lineText_append_split, hrs, response_base_segs, lineText_cons,
      lineText_nil, plain, response_pad, beq_self_eq_true, if_true]
    simp only [String.append_assoc, String.append_empty, String.empty_append]
  · intro h1
    have hb : (opts.flow_detail == 1) = false := by simp [h1]
    have heq : echo_response_line opts f = some
        (replay_segs f ++ [{ text := " <<", style := { bold := true } }]
          ++ response_base_segs resp req) := by
      simp only [echo_response_line, hresp, hreq, hb, Bool.false_eq_true, if_false]
    refine ⟨_, heq, ?_⟩
    simp only [lineText_append_split, hrs, response_base_segs, lineText_cons,
      lineText_nil, plain]
    simp only [String.append_assoc, String.append_empty, String.empty_append]

/-- Witness for C8, the spec's end-to-end example: client peer
`127.0.0.1:1234`, an HTTP/1.1 GET with a 304 Not Modified empty-body
response, at verbosity 1: the response line's arrow marker is padded with
12 spaces (address length 14 minus 2, no version prefix, no replay
marker), giving the right-aligned `<< 304 Not Modified 0b`. -/
theorem response_line_padding_witness :
    ∃ segs,
      echo_response_line { flow_detail := 1 }
          { client_peername := some { host := "127.0.0.1", port := 1234 },
            is_replay := none, h2_pushed := false,
            request := some { method := "GET", url := "http://example.com/",
                              pretty_url := "http://example.com/",
                              http_version := "HTTP/1.1",
                              is_http10 := false, is_http11 := true },
            response := some { status_code := 304, reason := "Not Modified",
                               http_version := "HTTP/1.1",
                               is_http10 := false, is_http11 := true,
                               is_http2 := false, raw_content := some [] },
            error := none }
        = some segs ∧
      lineText segs = "             << 304 Not Modified 0b" := by
  obtain ⟨segs, h1, h2⟩ :=
    (response_line_padding { flow_detail := 1 }
      { client_peername := some { host := "127.0.0.1", port := 1234 },
        is_replay := none, h2_pushed := false,
        request := some { method := "GET", url := "http://example.com/",
                          pretty_url := "http://example.com/",
                          http_version := "HTTP/1.1",
                          is_http10 := false, is_http11 := true },
        response := some { status_code := 304, reason := "Not Modified",
                           http_version := "HTTP/1.1",
                           is_http10 := false, is_http11 := true,
                           is_http2 := false, raw_content := some [] },
        error := none }
      { status_code := 304, reason := "Not Modified", http_version := "HTTP/1.1",
        is_http10 := false, is_http11 := true, is_http2 := false,
        raw_content := some [] }
      { method := "GET", url := "http://example.com/",
        pretty_url := "http://example.com/", http_version := "HTTP/1.1",
        is_http10 := false, is_http11 := true }
      { host := "127.0.0.1", port := 1234 }
      rfl rfl rfl).1 rfl
  refine ⟨segs, h1, ?_⟩
  rw [h2]
  rfl

/-! ### Claim C9: the WebSocket message handler does not mutate the flow -/

/-- C9: the WebSocket message handler never mutates the flow: it returns
the flow exactly as received (the body preview operates on the
`from_state(get_state())` copy), and at verbosity at least 3 the message
object passed to the body preview is the stored last message with its
content normalized to bytes — the flow's own stored message, its content
field included, is untouched. -/
theorem websocket_message_preserves_flow (d : Nat) (filt : Option (WSFlow → Bool))
    (encode : String → List Nat) (info : WSMessage → String) (f : WSFlow)
    (m : WSMessage) (hlast : f.messages.getLast? = some m) :
    (websocket_message d filt encode info f).map Prod.fst = some f ∧
    (dumper_match d filt f = true → 3 ≤ d →
      websocket_message d filt encode info f =
        some (f, [WSWrite.line (info m),
                  WSWrite.preview
                    { m with content := normalize_content encode m.content }])) := by
  constructor
  · unfold websocket_message
    split
    · simp only [hlast]
      split <;> rfl
    · rfl
  · intro hm h3
    have h3b : d ≥ 3 := h3
    unfold websocket_message
    rw [hm, if_pos rfl]
    simp only [hlast]
    rw [if_pos h3b]

/-- Witness for C9: a WebSocket flow holding one textual message `"hi"`;
at verbosity 3 with no filter, the handler returns the flow unchanged and
previews the copied message with content encoded to the bytes
`[104, 105]`, while the stored message still carries the text. -/
theorem websocket_message_preserves_flow_witness :
    websocket_message 3 none (fun s => s.data.map Char.toNat) (fun _ => "msg")
        { messages := [{ from_client := true, content := WSContent.text "hi" }] }
      = some ({ messages := [{ from_client := true, content := WSContent.text "hi" }] },
              [WSWrite.line "msg",
               WSWrite.preview { from_client := true,
                                 content := WSContent.binary [104, 105] }]) := by
  have h := (websocket_message_preserves_flow 3 none (fun s => s.data.map Char.toNat)
    (fun _ => "msg")
    { messages := [{ from_client := true, content := WSContent.text "hi" }] }
    { from_client := true, content := WSContent.text "hi" } rfl).2 rfl (by omega)
  rw [h]
  rfl

/-! ### Claim C10: the response line's client-connection precondition -/

/-- C10: rendering the response line at verbosity exactly 1 requires a
present client connection: the padding computation reads the client peer
address with no absence guard, so with a client connection present the
renderer succeeds, while at verbosity 1 with no client connection it has
no defined result (`none`); at any other verbosity the peer address is
never read and the renderer succeeds — and the request-line renderer, by
contrast, guards the absent-client case, falling back to the `[replay]`
marker or the empty label. -/
theorem response_line_client_precondition (opts : Options) (f : HTTPFlow)
    (resp : Response) (req : Request)
    (hresp : f.response = some resp) (hreq : f.request = some req) :
    (∀ c, f.client_peername = some c → (echo_response_line opts f).isSome = true) ∧
    (opts.flow_detail = 1 → f.client_peername = none →
      echo_response_line opts f = none) ∧
    (opts.flow_detail ≠ 1 → (echo_response_line opts f).isSome = true) ∧
    (f.client_peername = none →
      (request_client_label f).text = "[replay]" ∨
        (request_client_label f).text = "") := by
  refine ⟨fun c hc => ?_, fun h1 hc => ?_, fun h1 => ?_, fun hc => ?_⟩
  · simp only [echo_response_line, hresp, hreq, hc]
    split <;> rfl
  · have hb : (opts.flow_detail == 1) = true := by simp [h1]
    simp only [echo_response_line, hresp, hreq, hc, hb, if_true]
  · have hb : (opts.flow_detail == 1) = false := by simp [h1]
    simp only [echo_response_line, hresp, hreq, hb, Bool.false_eq_true, if_false,
      Option.isSome_some]
  · simp only [request_client_label, hc]
    split
    · exact Or.inl rfl
    · exact Or.inr rfl

/-- Witness for C10: with a client connection the verbosity-1 response
line is defined; for the same flow with the client connection removed it
is undefined; at verbosity 2 the connectionless flow renders fine. -/
theorem response_line_client_precondition_witness :
    (echo_response_line { flow_detail := 1 }
        { client_peername := some { host := "127.0.0.1", port := 1234 },
          is_replay := none, h2_pushed := false,
          request := some { method := "GET", url := "http://example.com/",
                            pretty_url := "http://example.com/",
                            http_version := "HTTP/1.1",
                            is_http10 := false, is_http11 := true },
          response := some { status_code := 200, reason := "OK",
                             http_version := "HTTP/1.1",
                             is_http10 := false, is_http11 := true,
                             is_http2 := false, raw_content := some [] },
          error := none }).isSome = true ∧
    echo_response_line { flow_detail := 1 }
        { client_peername := none,
          is_replay := some "request", h2_pushed := false,
          request := some { method := "GET", url := "http://example.com/",
                            pretty_url := "http://example.com/",
                            http_version := "HTTP/1.1",
                            is_http10 := false, is_http11 := true },
          response := some { status_code := 200, reason := "OK",
                             http_version := "HTTP/1.1",
                             is_http10 := false, is_http11 := true,
                             is_http2 := false, raw_content := some [] },
          error := none }
      = none ∧
    (echo_response_line { flow_detail := 2 }
        { client_peername := none,
          is_replay := some "request", h2_pushed := false,
          request := some { method := "GET", url := "http://example.com/",
                            pretty_url := "http://example.com/",
                            http_version := "HTTP/1.1",
                            is_http10 := false, is_http11 := true },
          response := some { status_code := 200, reason := "OK",
                             http_version := "HTTP/1.1",
                             is_http10 := false, is_http11 := true,
                             is_http2 := false, raw_content := some [] },
          error := none }).isSome = true := by
  refine ⟨?_, ?_, ?_⟩
  · exact (response_line_client_precondition { flow_detail := 1 }
      { client_peername := some { host := "127.0.0.1", port := 1234 },
        is_replay := none, h2_pushed := false,
        request := some { method := "GET", url := "http://example.com/",
                          pretty_url := "http://example.com/",
                          http_version := "HTTP/1.1",
                          is_http10 := false, is_http11 := true },
        response := some { status_code := 200, reason := "OK",
                           http_version := "HTTP/1.1",
                           is_http10 := false, is_http11 := true,
                           is_http2 := false, raw_content := some [] },
        error := none }
      { status_code := 200, reason := "OK", http_version := "HTTP/1.1",
        is_http10 := false, is_http11 := true, is_http2 := false,
        raw_content := some [] }
      { method := "GET", url := "http://example.com/",
        pretty_url := "http://example.com/", http_version := "HTTP/1.1",
        is_http10 := false, is_http11 := true }
      rfl rfl).1 { host := "127.0.0.1", port := 1234 } rfl
  · exact (response_line_client_precondition { flow_detail := 1 }
      { client_peername := none,
        is_replay := some "request", h2_pushed := false,
        request := some { method := "GET", url := "http://example.com/",
                          pretty_url := "http://example.com/",
                          http_version := "HTTP/1.1",
                          is_http10 := false, is_http11 := true },
        response := some { status_code := 200, reason := "OK",
                           http_version := "HTTP/1.1",
                           is_http10 := false, is_http11 := true,
                           is_http2 := false, raw_content := some [] },
        error := none }
      { status_code := 200, reason := "OK", http_version := "HTTP/1.1",
        is_http10 := false, is_http11 := true, is_http2 := false,
        raw_content := some [] }
      { method := "GET", url := "http://example.com/",
        pretty_url := "http://example.com/", http_version := "HTTP/1.1",
        is_http10 := false, is_http11 := true }
      rfl rfl).2.1 rfl rfl
  · exact (response_line_client_precondition { flow_detail := 2 }
      { client_peername := none,
        is_replay := some "request", h2_pushed := false,
        request := some { method := "GET", url := "http://example.com/",
                          pretty_url := "http://example.com/",
                          http_version := "HTTP/1.1",
                          is_http10 := false, is_http11 := true },
        response := some { status_code := 200, reason := "OK",
                           http_version := "HTTP/1.1",
                           is_http10 := false, is_http11 := true,
                           is_http2 := false, raw_content := some [] },
        error := none }
      { status_code := 200, reason := "OK", http_version := "HTTP/1.1",
        is_http10 := false, is_http11 := true, is_http2 := false,
        raw_content := some [] }
      { method := "GET", url := "http://example.com/",
        pretty_url := "http://example.com/", http_version := "HTTP/1.1",
        is_http10 := false, is_http11 := true }
      rfl rfl).2.2.1 (by decide)

end Dumper
